import Mathlib

/-!
# gke-deploy/testservices/os.go

A shallow embedding of the fake OS service `TestOS` and of the metadata stand-in
`TestFileInfo`, followed by the properties proved about them.

Modelling conventions

* A Go `string` is a Lean `String` (a valid UTF-8 string); `dir + pattern` is `dir ++ pattern`.
* A Go `map[string]V` is a finite map with unique keys, `AList`; the two-valued read
  `v, ok := m[k]` is `GoMap.get?`: `some v` for `(v, true)` and `none` for `ok = false`.
  A nil map reads like the empty map.
* A Go slice is a `List`; the nil slice is `[]`.
* A Go `error` is `Option String`: `none` is `nil`, `some s` an error whose text is `s`.
* An interface value of type `os.FileInfo` is `Option TestFileInfo`: `none` is the nil
  interface, `some fi` holds a `*TestFileInfo` pointing at `fi`.
* A method with receiver `o *TestOS` takes the receiver's value and gives back how the
  body ended (`Outcome`: a normal return or a panic with its string) together with the
  value of `*o` when it ended (`Ran.recv`).
* `fmt.Sprintf` and `strconv.Quote` belong to Go's standard library; they are transcribed
  below as far as the verb `%q` with a string operand needs, with the Unicode table behind
  `strconv.IsPrint` taken as a parameter `IsPrint`.
-/

set_option linter.unusedVariables false

namespace testservices

/-! ## Data model -/

/-- Go's `error` interface value: `none` is `nil`. -/
abbrev error := Option String

/-- What a callee can observe of a `context.Context`: the result of `ctx.Err()`
(`nil` while the context is live, an error once it is cancelled or expired) and
of `ctx.Deadline()`. -/
structure Context where
  Err : error
  Deadline : Option Nat
deriving DecidableEq, Repr

/-- The struct `TestFileInfo`: the embedded `os.FileInfo` (an interface value: nil or a
pointer to another `TestFileInfo`), `BaseName` and `IsDirectory`. -/
inductive TestFileInfo where
  | mk (FileInfo : Option TestFileInfo) (BaseName : String) (IsDirectory : Bool)
deriving Repr

/-- The interface type `os.FileInfo`. -/
abbrev os.FileInfo := Option TestFileInfo

/-- The type `os.FileMode` (a `uint32`). -/
abbrev os.FileMode := UInt32

/-- The embedded field of a `TestFileInfo`. -/
def TestFileInfo.FileInfo : TestFileInfo → os.FileInfo
  | .mk e _ _ => e

/-- The field `BaseName`. -/
def TestFileInfo.BaseName : TestFileInfo → String
  | .mk _ n _ => n

/-- The field `IsDirectory`. -/
def TestFileInfo.IsDirectory : TestFileInfo → Bool
  | .mk _ _ d => d

/-- A Go `map[string]V`. -/
abbrev GoMap (V : Type) := AList (fun _ : String => V)

/-- The read `v, ok := m[k]`. -/
def GoMap.get? {V : Type} (m : GoMap V) (k : String) : Option V :=
  AList.lookup k m

/-- StatResponse represents a response tuple for a Stat function call. -/
structure StatResponse where
  Res : os.FileInfo
  Err : error

/-- ReadDirResponse represents a response tuple for a ReadDir function call. -/
structure ReadDirResponse where
  Res : List os.FileInfo
  Err : error

/-- ReadFileResponse represents a response tuple for a ReadFile function call. -/
structure ReadFileResponse where
  Res : List UInt8
  Err : error

/-- TempDirResponse represents a response tuple for a TempDir function call. -/
structure TempDirResponse where
  Dir : String
  Err : error

/-- TestOS implements the OSService interface. -/
structure TestOS where
  StatResponse : GoMap testservices.StatResponse
  ReadDirResponse : GoMap testservices.ReadDirResponse
  ReadFileResponse : GoMap testservices.ReadFileResponse
  WriteFileResponse : GoMap error
  MkdirAllResponse : GoMap error
  RemoveAllResponse : GoMap error
  TempDirResponse : GoMap testservices.TempDirResponse

/-- How a function body ended: `ret v` is a normal return of `v`, `panic s` is
`panic(s)` with the string `s`. -/
inductive Outcome (α : Type) where
  | ret (v : α)
  | panic (v : String)
deriving Repr

/-- The result of running a method of `*TestOS`: how it ended and the value of the
receiver at that point. -/
structure Ran (α : Type) where
  out : Outcome α
  recv : TestOS

/-! ## The part of `strconv` and `fmt` behind `fmt.Sprintf("... %q", s)` -/

/-- The double quote character, U+0022. -/
def strconv.dquote : Char := Char.ofNat 34

/-- The backslash character, U+005C. -/
def strconv.backslash : Char := Char.ofNat 92

/-- The digit `lowerhex[i]` of `const lowerhex = "0123456789abcdef"`. -/
def strconv.lowerhex (i : Nat) : Char :=
  "0123456789abcdef".data.getD i '0'

/-- The function `strconv.appendEscapedRune` called with the double quote as `quote` and
with `ASCIIonly` and `graphicOnly` false, as the characters it appends for the rune `r`.
A shift `r >> s` is a division by `2 ^ s`, `& 0xF` is `% 16` and `byte(r)` is `r % 256`.
The case `!utf8.ValidRune(r)` does not arise for a `Char`. -/
def strconv.appendEscapedRune (IsPrint : Char → Bool) (r : Char) : List Char :=
  if r = strconv.dquote ∨ r = strconv.backslash then [strconv.backslash, r]
  else if IsPrint r then [r]
  else if r = Char.ofNat 7 then [strconv.backslash, 'a']
  else if r = Char.ofNat 8 then [strconv.backslash, 'b']
  else if r = Char.ofNat 12 then [strconv.backslash, 'f']
  else if r = Char.ofNat 10 then [strconv.backslash, 'n']
  else if r = Char.ofNat 13 then [strconv.backslash, 'r']
  else if r = Char.ofNat 9 then [strconv.backslash, 't']
  else if r = Char.ofNat 11 then [strconv.backslash, 'v']
  else if r.toNat < 32 ∨ r.toNat = 127 then
    [strconv.backslash, 'x', strconv.lowerhex (r.toNat % 256 / 16),
      strconv.lowerhex (r.toNat % 256 % 16)]
  else if r.toNat < 65536 then
    strconv.backslash :: 'u' ::
      [12, 8, 4, 0].map (fun s => strconv.lowerhex (r.toNat / 2 ^ s % 16))
  else
    strconv.backslash :: 'U' ::
      [28, 24, 20, 16, 12, 8, 4, 0].map (fun s => strconv.lowerhex (r.toNat / 2 ^ s % 16))

/-- The function `strconv.Quote(s)` on the characters of `s`: a double quote, every rune
escaped by `appendEscapedRune`, a double quote. -/
def strconv.quoteChars (IsPrint : Char → Bool) (s : List Char) : List Char :=
  strconv.dquote :: (s.flatMap (strconv.appendEscapedRune IsPrint) ++ [strconv.dquote])

/-- The function `strconv.Quote`. -/
def strconv.Quote (IsPrint : Char → Bool) (s : String) : String :=
  String.mk (strconv.quoteChars IsPrint s.data)

/-- The formatting loop of `fmt.Sprintf` over the characters of the format: a verb `%q`
takes the next operand and writes it quoted, `%!q(MISSING)` when no operand is left;
every other character is copied. Other verbs and left-over operands do not occur in
this package. -/
def fmt.sprintfChars (IsPrint : Char → Bool) : List Char → List String → List Char
  | '%' :: 'q' :: rest, a :: args =>
    (strconv.Quote IsPrint a).data ++ fmt.sprintfChars IsPrint rest args
  | '%' :: 'q' :: rest, [] => "%!q(MISSING)".data ++ fmt.sprintfChars IsPrint rest []
  | c :: rest, args => c :: fmt.sprintfChars IsPrint rest args
  | [], _ => []

/-- The function `fmt.Sprintf(format, args...)` for string operands. -/
def fmt.Sprintf (IsPrint : Char → Bool) (format : String) (args : List String) : String :=
  String.mk (fmt.sprintfChars IsPrint format.data args)

/-! ## The methods of `TestOS` -/

/-- Stat gets a file description for a file filename. -/
def TestOS.Stat (IsPrint : Char → Bool) (o : TestOS) (ctx : Context) (filename : String) :
    Ran (os.FileInfo × error) :=
  match o.StatResponse.get? filename with
  | none =>
    ⟨.panic (fmt.Sprintf IsPrint "Stat has no response for filename %q" [filename]), o⟩
  | some resp => ⟨.ret (resp.Res, resp.Err), o⟩

/-- ReadDir gets file descriptions for all files contained in a directory dirname. -/
def TestOS.ReadDir (IsPrint : Char → Bool) (o : TestOS) (ctx : Context) (dirname : String) :
    Ran (List os.FileInfo × error) :=
  match o.ReadDirResponse.get? dirname with
  | none =>
    ⟨.panic (fmt.Sprintf IsPrint "ReadDir has no response for dirname %q" [dirname]), o⟩
  | some resp => ⟨.ret (resp.Res, resp.Err), o⟩

/-- ReadFile gets the entire contents of a file filename as bytes. -/
def TestOS.ReadFile (IsPrint : Char → Bool) (o : TestOS) (ctx : Context) (filename : String) :
    Ran (List UInt8 × error) :=
  match o.ReadFileResponse.get? filename with
  | none =>
    ⟨.panic (fmt.Sprintf IsPrint "ReadFile has no response for filename %q" [filename]), o⟩
  | some resp => ⟨.ret (resp.Res, resp.Err), o⟩

/-- WriteFile writes data to a file. -/
def TestOS.WriteFile (IsPrint : Char → Bool) (o : TestOS) (ctx : Context) (filename : String)
    (data : List UInt8) (perm : os.FileMode) : Ran error :=
  match o.WriteFileResponse.get? filename with
  | none =>
    ⟨.panic (fmt.Sprintf IsPrint "WriteFileResponse has no response for filename %q"
      [filename]), o⟩
  | some err => ⟨.ret err, o⟩

/-- MkdirAll creates a directory dirname, including all parent directories if they do
not exist. -/
def TestOS.MkdirAll (IsPrint : Char → Bool) (o : TestOS) (ctx : Context) (dirname : String)
    (perm : os.FileMode) : Ran error :=
  match o.MkdirAllResponse.get? dirname with
  | none =>
    ⟨.panic (fmt.Sprintf IsPrint "MkdirAllResponse has no response for dirname %q"
      [dirname]), o⟩
  | some err => ⟨.ret err, o⟩

/-- RemoveAll removes path and any children it contains. -/
def TestOS.RemoveAll (IsPrint : Char → Bool) (o : TestOS) (ctx : Context) (path : String) :
    Ran error :=
  match o.RemoveAllResponse.get? path with
  | none =>
    ⟨.panic (fmt.Sprintf IsPrint "RemoveAllResponse has no response for path %q" [path]), o⟩
  | some err => ⟨.ret err, o⟩

/-- TempDir creates a new temporary directory in the directory dir. -/
def TestOS.TempDir (IsPrint : Char → Bool) (o : TestOS) (ctx : Context)
    (dir pattern : String) : Ran (String × error) :=
  match o.TempDirResponse.get? (dir ++ pattern) with
  | none =>
    ⟨.panic (fmt.Sprintf IsPrint "TempDirResponse has no response for  dir + pattern %q"
      [dir ++ pattern]), o⟩
  | some resp => ⟨.ret (resp.Dir, resp.Err), o⟩

/-! ## The methods of `TestFileInfo` -/

/-- The method `Name` of `TestFileInfo`, on the record its receiver points at. -/
def TestFileInfo.Name (fi : TestFileInfo) : String :=
  fi.BaseName

/-- IsDir returns true if the file is a directory. -/
def TestFileInfo.IsDir (fi : TestFileInfo) : Bool :=
  fi.IsDirectory

/-! ## Reading quoted text back -/

/-- The value of the hexadecimal digit `c`: its index in `lowerhex`. -/
def strconv.unhex (c : Char) : Nat :=
  "0123456789abcdef".data.indexOf c

/-- Reads one escaped rune back from the head of quoted text: the rune and the text
after it. -/
def strconv.unescapeRune : List Char → Option (Char × List Char)
  | [] => none
  | c :: rest =>
    if c = strconv.backslash then
      match rest with
      | [] => none
      | e :: t =>
        if e = 'a' then some (Char.ofNat 7, t)
        else if e = 'b' then some (Char.ofNat 8, t)
        else if e = 'f' then some (Char.ofNat 12, t)
        else if e = 'n' then some (Char.ofNat 10, t)
        else if e = 'r' then some (Char.ofNat 13, t)
        else if e = 't' then some (Char.ofNat 9, t)
        else if e = 'v' then some (Char.ofNat 11, t)
        else if e = 'x' then
          some (Char.ofNat ((t.take 2).foldl (fun n d => 16 * n + strconv.unhex d) 0), t.drop 2)
        else if e = 'u' then
          some (Char.ofNat ((t.take 4).foldl (fun n d => 16 * n + strconv.unhex d) 0), t.drop 4)
        else if e = 'U' then
          some (Char.ofNat ((t.take 8).foldl (fun n d => 16 * n + strconv.unhex d) 0), t.drop 8)
        else some (e, t)
    else some (c, rest)

/-! ## Sequences of calls -/

/-- A call of one of the seven operations, with its arguments. -/
inductive Call where
  | Stat (ctx : Context) (filename : String)
  | ReadDir (ctx : Context) (dirname : String)
  | ReadFile (ctx : Context) (filename : String)
  | WriteFile (ctx : Context) (filename : String) (data : List UInt8) (perm : os.FileMode)
  | MkdirAll (ctx : Context) (dirname : String) (perm : os.FileMode)
  | RemoveAll (ctx : Context) (path : String)
  | TempDir (ctx : Context) (dir pattern : String)

/-- The values returned by one of the seven operations. -/
inductive Returned where
  | Stat (res : os.FileInfo) (err : error)
  | ReadDir (res : List os.FileInfo) (err : error)
  | ReadFile (res : List UInt8) (err : error)
  | WriteFile (err : error)
  | MkdirAll (err : error)
  | RemoveAll (err : error)
  | TempDir (dir : String) (err : error)

/-- Relabels what a run returned; a panic and the receiver are kept. -/
def Ran.map {α β : Type} (f : α → β) (x : Ran α) : Ran β :=
  match x.out with
  | .ret v => ⟨.ret (f v), x.recv⟩
  | .panic s => ⟨.panic s, x.recv⟩

/-- Makes the call `c` on the fake `o`. -/
def TestOS.call (IsPrint : Char → Bool) (o : TestOS) : Call → Ran Returned
  | .Stat ctx filename => (o.Stat IsPrint ctx filename).map (fun p => .Stat p.1 p.2)
  | .ReadDir ctx dirname => (o.ReadDir IsPrint ctx dirname).map (fun p => .ReadDir p.1 p.2)
  | .ReadFile ctx filename => (o.ReadFile IsPrint ctx filename).map (fun p => .ReadFile p.1 p.2)
  | .WriteFile ctx filename data perm =>
    (o.WriteFile IsPrint ctx filename data perm).map .WriteFile
  | .MkdirAll ctx dirname perm => (o.MkdirAll IsPrint ctx dirname perm).map .MkdirAll
  | .RemoveAll ctx path => (o.RemoveAll IsPrint ctx path).map .RemoveAll
  | .TempDir ctx dir pattern => (o.TempDir IsPrint ctx dir pattern).map (fun p => .TempDir p.1 p.2)

/-- The fake after the calls `cs` were made on it one after the other, a caller that
recovers from a panic going on with the next call. -/
def TestOS.after (IsPrint : Char → Bool) (o : TestOS) : List Call → TestOS
  | [] => o
  | c :: cs => ((o.call IsPrint c).recv).after IsPrint cs

/-! ## Vocabulary for the statements -/

/-- The body ended in a panic. -/
def Outcome.panics {α : Type} : Outcome α → Prop
  | .panic _ => True
  | .ret _ => False

instance Outcome.decidablePanics {α : Type} : (x : Outcome α) → Decidable x.panics
  | .panic _ => isTrue trivial
  | .ret _ => isFalse not_false

/-- The body returned normally. -/
def Outcome.returns {α : Type} : Outcome α → Prop
  | .panic _ => False
  | .ret _ => True

instance Outcome.decidableReturns {α : Type} : (x : Outcome α) → Decidable x.returns
  | .panic _ => isFalse not_false
  | .ret _ => isTrue trivial

/-- The text `part` occurs in the message `msg`. -/
def mentions (msg part : String) : Prop :=
  part.data <:+: msg.data

instance mentions.decidable (msg part : String) : Decidable (mentions msg part) :=
  inferInstanceAs (Decidable (part.data <:+: msg.data))

/-- The body panicked with a message in which both the operation name `op` and the
quoted form of the key `key` occur. -/
def Outcome.panicsNaming {α : Type} (IsPrint : Char → Bool) :
    Outcome α → String → String → Prop
  | .panic msg, op, key => mentions msg op ∧ mentions msg (strconv.Quote IsPrint key)
  | .ret _, _, _ => False

instance Outcome.decidablePanicsNaming {α : Type} (IsPrint : Char → Bool) :
    (x : Outcome α) → (op key : String) → Decidable (x.panicsNaming IsPrint op key)
  | .panic msg, op, key =>
    inferInstanceAs (Decidable (mentions msg op ∧ mentions msg (strconv.Quote IsPrint key)))
  | .ret _, _, _ => isFalse not_false

/-- Both bodies panicked, with two different messages. -/
def Outcome.panicsApart {α : Type} : Outcome α → Outcome α → Prop
  | .panic m1, .panic m2 => m1 ≠ m2
  | .panic _, .ret _ => False
  | .ret _, _ => False

instance Outcome.decidablePanicsApart {α : Type} :
    (x y : Outcome α) → Decidable (x.panicsApart y)
  | .panic m1, .panic m2 => inferInstanceAs (Decidable (m1 ≠ m2))
  | .panic _, .ret _ => isFalse not_false
  | .ret _, _ => isFalse not_false

/-- A sample table for `IsPrint`: the printable ASCII characters, U+0020 to U+007E. -/
def IsPrintASCII (c : Char) : Bool :=
  32 ≤ c.toNat && c.toNat < 127

/-- A fake with no response registered. -/
def emptyOS : TestOS :=
  ⟨∅, ∅, ∅, ∅, ∅, ∅, ∅⟩

/-- A live context without deadline, as `context.Background()`. -/
def Context.background : Context :=
  ⟨none, none⟩

/-- A context that was cancelled. -/
def Context.canceled : Context :=
  ⟨some "context canceled", none⟩

/-- The record `&TestFileInfo{BaseName: "b", IsDirectory: false}`. -/
def sampleInfo : TestFileInfo :=
  .mk none "b" false

/-- A fake with one response registered under the key `/a/b` in each of the six
single-argument mappings; its `Stat` entry is `(sampleInfo, nil)`. -/
def sampleOS : TestOS :=
  { StatResponse := AList.singleton "/a/b" ⟨some sampleInfo, none⟩
    ReadDirResponse := AList.singleton "/a/b" ⟨[some sampleInfo, none], some "EACCES"⟩
    ReadFileResponse := AList.singleton "/a/b" ⟨[104, 105], none⟩
    WriteFileResponse := AList.singleton "/a/b" (some "disk full")
    MkdirAllResponse := AList.singleton "/a/b" none
    RemoveAllResponse := AList.singleton "/a/b" (some "busy")
    TempDirResponse := ∅ }

/-- A fake whose only response is the one registered for `TempDir(dir, pattern)`. -/
def onlyTempDir (dir pattern : String) (resp : TempDirResponse) : TestOS :=
  { emptyOS with TempDirResponse := AList.singleton (dir ++ pattern) resp }

/-- A fake whose only response is the error `e`, registered for `WriteFile(k)`. -/
def onlyWriteFile (k : String) (e : error) : TestOS :=
  { emptyOS with WriteFileResponse := AList.singleton k e }

/-- A fake in which the key `/z` is registered in every mapping with the zero value of
the response type: a nil error, and a nil or empty result with a nil error. -/
def zeroOS : TestOS :=
  { StatResponse := AList.singleton "/z" ⟨none, none⟩
    ReadDirResponse := AList.singleton "/z" ⟨[], none⟩
    ReadFileResponse := AList.singleton "/z" ⟨[], none⟩
    WriteFileResponse := AList.singleton "/z" none
    MkdirAllResponse := AList.singleton "/z" none
    RemoveAllResponse := AList.singleton "/z" none
    TempDirResponse := AList.singleton "/z" ⟨"", none⟩ }

end testservices

/-! ## Properties -/

namespace testservices

/-! ### Reading a mapping -/

theorem GoMap.get?_singleton_self {V : Type} (k : String) (v : V) :
    GoMap.get? (AList.singleton k v) k = some v := by
  simp [GoMap.get?, AList.lookup, AList.singleton]

theorem GoMap.get?_singleton_ne {V : Type} {k k1 : String} (v : V) (h : k1 ≠ k) :
    GoMap.get? (AList.singleton k v) k1 = none := by
  simp [GoMap.get?, AList.lookup, AList.singleton, List.dlookup, Ne.symm h]

/-! ### Quoting is injective -/

theorem strconv.unhex_lowerhex (i : Nat) (h : i < 16) :
    strconv.unhex (strconv.lowerhex i) = i := by
  interval_cases i <;> rfl


theorem strconv.toNat_lt (r : Char) : r.toNat < 1114112 := by
  rcases r.valid with h | ⟨_, h⟩
  · exact Nat.lt_trans h (by decide)
  · exact h

theorem strconv.unescapeRune_appendEscapedRune (IsPrint : Char → Bool) (r : Char)
    (t : List Char) :
    strconv.unescapeRune (strconv.appendEscapedRune IsPrint r ++ t) = some (r, t) := by
  have hn : r.toNat < 1114112 := strconv.toNat_lt r
  unfold strconv.appendEscapedRune
  by_cases h1 : r = strconv.dquote ∨ r = strconv.backslash
  · rw [if_pos h1]
    rcases h1 with rfl | rfl <;> rfl
  rw [if_neg h1]
  have hb : r ≠ strconv.backslash := fun h => h1 (Or.inr h)
  by_cases h2 : IsPrint r = true
  · rw [if_pos h2]
    simp [strconv.unescapeRune, hb]
  rw [if_neg h2]
  by_cases h3 : r = Char.ofNat 7
  · subst h3; rfl
  rw [if_neg h3]
  by_cases h4 : r = Char.ofNat 8
  · subst h4; rfl
  rw [if_neg h4]
  by_cases h5 : r = Char.ofNat 12
  · subst h5; rfl
  rw [if_neg h5]
  by_cases h6 : r = Char.ofNat 10
  · subst h6; rfl
  rw [if_neg h6]
  by_cases h7 : r = Char.ofNat 13
  · subst h7; rfl
  rw [if_neg h7]
  by_cases h8 : r = Char.ofNat 9
  · subst h8; rfl
  rw [if_neg h8]
  by_cases h9 : r = Char.ofNat 11
  · subst h9; rfl
  rw [if_neg h9]
  have key : ∀ n, n = r.toNat → Char.ofNat n = r := fun n hn => hn ▸ Char.ofNat_toNat r
  by_cases h10 : r.toNat < 32 ∨ r.toNat = 127
  · rw [if_pos h10]
    have e : strconv.unescapeRune ([strconv.backslash, 'x', strconv.lowerhex (r.toNat % 256 / 16),
        strconv.lowerhex (r.toNat % 256 % 16)] ++ t) =
        some (Char.ofNat (16 * (16 * 0 + strconv.unhex (strconv.lowerhex (r.toNat % 256 / 16)))
          + strconv.unhex (strconv.lowerhex (r.toNat % 256 % 16))), t) := rfl
    rw [e, strconv.unhex_lowerhex _ (by omega), strconv.unhex_lowerhex _ (by omega)]
    rw [key _ (by omega)]
  rw [if_neg h10]
  by_cases h11 : r.toNat < 65536
  · rw [if_pos h11]
    have e : strconv.unescapeRune (strconv.backslash :: 'u' ::
        [12, 8, 4, 0].map (fun s => strconv.lowerhex (r.toNat / 2 ^ s % 16)) ++ t) =
        some (Char.ofNat (16 * (16 * (16 * (16 * 0
          + strconv.unhex (strconv.lowerhex (r.toNat / 2 ^ 12 % 16)))
          + strconv.unhex (strconv.lowerhex (r.toNat / 2 ^ 8 % 16)))
          + strconv.unhex (strconv.lowerhex (r.toNat / 2 ^ 4 % 16)))
          + strconv.unhex (strconv.lowerhex (r.toNat / 2 ^ 0 % 16))), t) := rfl
    rw [e]
    repeat rw [strconv.unhex_lowerhex _ (Nat.mod_lt _ (by decide))]
    rw [key _ (by norm_num; omega)]
  rw [if_neg h11]
  have e : strconv.unescapeRune (strconv.backslash :: 'U' ::
      [28, 24, 20, 16, 12, 8, 4, 0].map (fun s => strconv.lowerhex (r.toNat / 2 ^ s % 16)) ++ t) =
      some (Char.ofNat (16 * (16 * (16 * (16 * (16 * (16 * (16 * (16 * 0
        + strconv.unhex (strconv.lowerhex (r.toNat / 2 ^ 28 % 16)))
        + strconv.unhex (strconv.lowerhex (r.toNat / 2 ^ 24 % 16)))
        + strconv.unhex (strconv.lowerhex (r.toNat / 2 ^ 20 % 16)))
        + strconv.unhex (strconv.lowerhex (r.toNat / 2 ^ 16 % 16)))
        + strconv.unhex (strconv.lowerhex (r.toNat / 2 ^ 12 % 16)))
        + strconv.unhex (strconv.lowerhex (r.toNat / 2 ^ 8 % 16)))
        + strconv.unhex (strconv.lowerhex (r.toNat / 2 ^ 4 % 16)))
        + strconv.unhex (strconv.lowerhex (r.toNat / 2 ^ 0 % 16))), t) := rfl
  rw [e]
  repeat rw [strconv.unhex_lowerhex _ (Nat.mod_lt _ (by decide))]
  rw [key _ (by norm_num; omega)]

theorem strconv.flatMap_appendEscapedRune_injective (IsPrint : Char → Bool) :
    ∀ s1 s2 : List Char, s1.flatMap (strconv.appendEscapedRune IsPrint)
      = s2.flatMap (strconv.appendEscapedRune IsPrint) → s1 = s2
  | [], [], _ => rfl
  | [], r :: s2, h => by
    have e := strconv.unescapeRune_appendEscapedRune IsPrint r
      (s2.flatMap (strconv.appendEscapedRune IsPrint))
    rw [← List.flatMap_cons, ← h] at e
    exact nomatch e
  | r :: s1, [], h => by
    have e := strconv.unescapeRune_appendEscapedRune IsPrint r
      (s1.flatMap (strconv.appendEscapedRune IsPrint))
    rw [← List.flatMap_cons, h] at e
    exact nomatch e
  | r1 :: s1, r2 :: s2, h => by
    have e1 := strconv.unescapeRune_appendEscapedRune IsPrint r1
      (s1.flatMap (strconv.appendEscapedRune IsPrint))
    have e2 := strconv.unescapeRune_appendEscapedRune IsPrint r2
      (s2.flatMap (strconv.appendEscapedRune IsPrint))
    rw [← List.flatMap_cons, h, List.flatMap_cons, e2] at e1
    injection e1 with e1
    injection e1 with hr ht
    rw [hr, strconv.flatMap_appendEscapedRune_injective IsPrint s1 s2 ht.symm]

theorem strconv.Quote_injective (IsPrint : Char → Bool) (s1 s2 : String)
    (h : strconv.Quote IsPrint s1 = strconv.Quote IsPrint s2) : s1 = s2 := by
  have h1 : strconv.quoteChars IsPrint s1.data = strconv.quoteChars IsPrint s2.data :=
    congrArg String.data h
  unfold strconv.quoteChars at h1
  injection h1 with _ h2
  exact String.ext
    (strconv.flatMap_appendEscapedRune_injective IsPrint _ _ (List.append_cancel_right h2))

theorem fmt.Sprintf_Stat (IsPrint : Char → Bool) (k : String) :
    fmt.Sprintf IsPrint "Stat has no response for filename %q" [k]
      = "Stat has no response for filename " ++ strconv.Quote IsPrint k := by
  apply String.ext
  simp [fmt.Sprintf, fmt.sprintfChars]


theorem fmt.Sprintf_ReadDir (IsPrint : Char → Bool) (k : String) :
    fmt.Sprintf IsPrint "ReadDir has no response for dirname %q" [k]
      = "ReadDir has no response for dirname " ++ strconv.Quote IsPrint k := by
  apply String.ext
  simp [fmt.Sprintf, fmt.sprintfChars]

theorem fmt.Sprintf_ReadFile (IsPrint : Char → Bool) (k : String) :
    fmt.Sprintf IsPrint "ReadFile has no response for filename %q" [k]
      = "ReadFile has no response for filename " ++ strconv.Quote IsPrint k := by
  apply String.ext
  simp [fmt.Sprintf, fmt.sprintfChars]

theorem fmt.Sprintf_WriteFile (IsPrint : Char → Bool) (k : String) :
    fmt.Sprintf IsPrint "WriteFileResponse has no response for filename %q" [k]
      = "WriteFileResponse has no response for filename " ++ strconv.Quote IsPrint k := by
  apply String.ext
  simp [fmt.Sprintf, fmt.sprintfChars]

theorem fmt.Sprintf_MkdirAll (IsPrint : Char → Bool) (k : String) :
    fmt.Sprintf IsPrint "MkdirAllResponse has no response for dirname %q" [k]
      = "MkdirAllResponse has no response for dirname " ++ strconv.Quote IsPrint k := by
  apply String.ext
  simp [fmt.Sprintf, fmt.sprintfChars]

theorem fmt.Sprintf_RemoveAll (IsPrint : Char → Bool) (k : String) :
    fmt.Sprintf IsPrint "RemoveAllResponse has no response for path %q" [k]
      = "RemoveAllResponse has no response for path " ++ strconv.Quote IsPrint k := by
  apply String.ext
  simp [fmt.Sprintf, fmt.sprintfChars]

theorem fmt.Sprintf_TempDir (IsPrint : Char → Bool) (k : String) :
    fmt.Sprintf IsPrint "TempDirResponse has no response for  dir + pattern %q" [k]
      = "TempDirResponse has no response for  dir + pattern " ++ strconv.Quote IsPrint k := by
  apply String.ext
  simp [fmt.Sprintf, fmt.sprintfChars]

/-- A message that starts with the operation name and ends with the quoted key mentions
both. -/
theorem mentions_of_parts (op rest q : String) :
    mentions (op ++ rest ++ q) op ∧ mentions (op ++ rest ++ q) q := by
  constructor
  · exact ⟨[], rest.data ++ q.data, by simp⟩
  · exact ⟨op.data ++ rest.data, [], by simp⟩

theorem append_quote_injective (IsPrint : Char → Bool) (pre k1 k2 : String) (h : k1 ≠ k2) :
    pre ++ strconv.Quote IsPrint k1 ≠ pre ++ strconv.Quote IsPrint k2 := by
  intro e
  have e1 := congrArg String.data e
  simp only [String.data_append] at e1
  exact h (strconv.Quote_injective IsPrint k1 k2 (String.ext (List.append_cancel_left e1)))

theorem TestOS.Stat_miss (IsPrint : Char → Bool) (o : TestOS) (ctx : Context) (k : String)
    (h : o.StatResponse.get? k = none) :
    (o.Stat IsPrint ctx k).out
      = Outcome.panic ("Stat has no response for filename " ++ strconv.Quote IsPrint k) := by
  simp only [TestOS.Stat, h, fmt.Sprintf_Stat]

theorem TestOS.ReadDir_miss (IsPrint : Char → Bool) (o : TestOS) (ctx : Context) (k : String)
    (h : o.ReadDirResponse.get? k = none) :
    (o.ReadDir IsPrint ctx k).out
      = Outcome.panic ("ReadDir has no response for dirname " ++ strconv.Quote IsPrint k) := by
  simp only [TestOS.ReadDir, h, fmt.Sprintf_ReadDir]

theorem TestOS.ReadFile_miss (IsPrint : Char → Bool) (o : TestOS) (ctx : Context) (k : String)
    (h : o.ReadFileResponse.get? k = none) :
    (o.ReadFile IsPrint ctx k).out
      = Outcome.panic ("ReadFile has no response for filename " ++ strconv.Quote IsPrint k) := by
  simp only [TestOS.ReadFile, h, fmt.Sprintf_ReadFile]

theorem TestOS.WriteFile_miss (IsPrint : Char → Bool) (o : TestOS) (ctx : Context) (k : String)
    (data : List UInt8) (perm : os.FileMode)
    (h : o.WriteFileResponse.get? k = none) :
    (o.WriteFile IsPrint ctx k data perm).out
      = Outcome.panic ("WriteFileResponse has no response for filename " ++ strconv.Quote IsPrint k) := by
  simp only [TestOS.WriteFile, h, fmt.Sprintf_WriteFile]

theorem TestOS.MkdirAll_miss (IsPrint : Char → Bool) (o : TestOS) (ctx : Context) (k : String)
    (perm : os.FileMode)
    (h : o.MkdirAllResponse.get? k = none) :
    (o.MkdirAll IsPrint ctx k perm).out
      = Outcome.panic ("MkdirAllResponse has no response for dirname " ++ strconv.Quote IsPrint k) := by
  simp only [TestOS.MkdirAll, h, fmt.Sprintf_MkdirAll]

theorem TestOS.RemoveAll_miss (IsPrint : Char → Bool) (o : TestOS) (ctx : Context) (k : String)
    (h : o.RemoveAllResponse.get? k = none) :
    (o.RemoveAll IsPrint ctx k).out
      = Outcome.panic ("RemoveAllResponse has no response for path " ++ strconv.Quote IsPrint k) := by
  simp only [TestOS.RemoveAll, h, fmt.Sprintf_RemoveAll]

theorem TestOS.TempDir_miss (IsPrint : Char → Bool) (o : TestOS) (ctx : Context)
    (dir pattern : String) (h : o.TempDirResponse.get? (dir ++ pattern) = none) :
    (o.TempDir IsPrint ctx dir pattern).out
      = Outcome.panic ("TempDirResponse has no response for  dir + pattern "
          ++ strconv.Quote IsPrint (dir ++ pattern)) := by
  simp only [TestOS.TempDir, h, fmt.Sprintf_TempDir]

/-! ### The receiver is only read -/

theorem Ran.map_recv {α β : Type} (f : α → β) (x : Ran α) : (x.map f).recv = x.recv := by
  unfold Ran.map
  split <;> rfl

theorem TestOS.call_recv (IsPrint : Char → Bool) (o : TestOS) (c : Call) :
    (o.call IsPrint c).recv = o := by
  cases c <;> simp only [TestOS.call, Ran.map_recv]
  · unfold TestOS.Stat; split <;> rfl
  · unfold TestOS.ReadDir; split <;> rfl
  · unfold TestOS.ReadFile; split <;> rfl
  · unfold TestOS.WriteFile; split <;> rfl
  · unfold TestOS.MkdirAll; split <;> rfl
  · unfold TestOS.RemoveAll; split <;> rfl
  · unfold TestOS.TempDir; split <;> rfl

theorem TestOS.after_eq (IsPrint : Char → Bool) (o : TestOS) (cs : List Call) :
    o.after IsPrint cs = o := by
  induction cs with
  | nil => rfl
  | cons c cs ih => simpa [TestOS.after, TestOS.call_recv] using ih

/-! ### Hits and misses -/

/-- C1: a lookup hit returns the stored response verbatim. For every fake, context and
key `k`: when `k` is present in the mapping of the operation, `Stat`, `ReadDir` and
`ReadFile` return the stored pair `(Res, Err)`, and `WriteFile`, `MkdirAll` and
`RemoveAll` return the stored error, unchanged and without a panic. -/
theorem hit_returns_stored (IsPrint : Char → Bool) (o : TestOS) (ctx : Context) (k : String)
    (data : List UInt8) (perm : os.FileMode) :
    (∀ r, o.StatResponse.get? k = some r →
      (o.Stat IsPrint ctx k).out = Outcome.ret (r.Res, r.Err)) ∧
    (∀ r, o.ReadDirResponse.get? k = some r →
      (o.ReadDir IsPrint ctx k).out = Outcome.ret (r.Res, r.Err)) ∧
    (∀ r, o.ReadFileResponse.get? k = some r →
      (o.ReadFile IsPrint ctx k).out = Outcome.ret (r.Res, r.Err)) ∧
    (∀ e, o.WriteFileResponse.get? k = some e →
      (o.WriteFile IsPrint ctx k data perm).out = Outcome.ret e) ∧
    (∀ e, o.MkdirAllResponse.get? k = some e →
      (o.MkdirAll IsPrint ctx k perm).out = Outcome.ret e) ∧
    (∀ e, o.RemoveAllResponse.get? k = some e →
      (o.RemoveAll IsPrint ctx k).out = Outcome.ret e) := by
  refine ⟨?_, ?_, ?_, ?_, ?_, ?_⟩ <;> intro r h
  · simp [TestOS.Stat, h]
  · simp [TestOS.ReadDir, h]
  · simp [TestOS.ReadFile, h]
  · simp [TestOS.WriteFile, h]
  · simp [TestOS.MkdirAll, h]
  · simp [TestOS.RemoveAll, h]

/-- The scenario of C1: with `Stat("/a/b") -> (sampleInfo, nil)` registered, `Stat` on
`/a/b` returns that metadata and a nil error; the five other operations likewise return
what `sampleOS` stores under `/a/b`. -/
theorem hit_returns_stored_witness :
    (sampleOS.Stat IsPrintASCII Context.background "/a/b").out
      = Outcome.ret (some (TestFileInfo.mk none "b" false), none) ∧
    (sampleOS.ReadDir IsPrintASCII Context.background "/a/b").out
      = Outcome.ret ([some sampleInfo, none], some "EACCES") ∧
    (sampleOS.ReadFile IsPrintASCII Context.background "/a/b").out
      = Outcome.ret ([104, 105], none) ∧
    (sampleOS.WriteFile IsPrintASCII Context.background "/a/b" [1, 2, 3] 420).out
      = Outcome.ret (some "disk full") ∧
    (sampleOS.MkdirAll IsPrintASCII Context.background "/a/b" 493).out
      = Outcome.ret none ∧
    (sampleOS.RemoveAll IsPrintASCII Context.background "/a/b").out
      = Outcome.ret (some "busy") :=
  have h := hit_returns_stored IsPrintASCII sampleOS Context.background "/a/b" [1, 2, 3] 420
  have h5 := (hit_returns_stored IsPrintASCII sampleOS Context.background "/a/b" [] 493).2.2.2.2.1
  ⟨h.1 _ rfl, h.2.1 _ rfl, h.2.2.1 _ rfl, h.2.2.2.1 _ rfl, h5 _ rfl, h.2.2.2.2.2 _ rfl⟩

/-- C2: abort on miss, and only on miss. For each of the seven operations, every fake and
every input, the call panics if and only if the lookup key is absent from the mapping of
that operation, and when the key is absent nothing is returned. -/
theorem abort_iff_miss (IsPrint : Char → Bool) (o : TestOS) (ctx : Context) (k : String)
    (data : List UInt8) (perm : os.FileMode) (dir pattern : String) :
    (((o.Stat IsPrint ctx k).out.panics ↔ o.StatResponse.get? k = none) ∧
      (o.StatResponse.get? k = none → ¬ (o.Stat IsPrint ctx k).out.returns)) ∧
    (((o.ReadDir IsPrint ctx k).out.panics ↔ o.ReadDirResponse.get? k = none) ∧
      (o.ReadDirResponse.get? k = none → ¬ (o.ReadDir IsPrint ctx k).out.returns)) ∧
    (((o.ReadFile IsPrint ctx k).out.panics ↔ o.ReadFileResponse.get? k = none) ∧
      (o.ReadFileResponse.get? k = none → ¬ (o.ReadFile IsPrint ctx k).out.returns)) ∧
    (((o.WriteFile IsPrint ctx k data perm).out.panics ↔ o.WriteFileResponse.get? k = none) ∧
      (o.WriteFileResponse.get? k = none →
        ¬ (o.WriteFile IsPrint ctx k data perm).out.returns)) ∧
    (((o.MkdirAll IsPrint ctx k perm).out.panics ↔ o.MkdirAllResponse.get? k = none) ∧
      (o.MkdirAllResponse.get? k = none → ¬ (o.MkdirAll IsPrint ctx k perm).out.returns)) ∧
    (((o.RemoveAll IsPrint ctx k).out.panics ↔ o.RemoveAllResponse.get? k = none) ∧
      (o.RemoveAllResponse.get? k = none → ¬ (o.RemoveAll IsPrint ctx k).out.returns)) ∧
    (((o.TempDir IsPrint ctx dir pattern).out.panics
        ↔ o.TempDirResponse.get? (dir ++ pattern) = none) ∧
      (o.TempDirResponse.get? (dir ++ pattern) = none →
        ¬ (o.TempDir IsPrint ctx dir pattern).out.returns)) := by
  refine ⟨?_, ?_, ?_, ?_, ?_, ?_, ?_⟩
  · cases h : o.StatResponse.get? k <;>
      simp [TestOS.Stat, h, Outcome.panics, Outcome.returns]
  · cases h : o.ReadDirResponse.get? k <;>
      simp [TestOS.ReadDir, h, Outcome.panics, Outcome.returns]
  · cases h : o.ReadFileResponse.get? k <;>
      simp [TestOS.ReadFile, h, Outcome.panics, Outcome.returns]
  · cases h : o.WriteFileResponse.get? k <;>
      simp [TestOS.WriteFile, h, Outcome.panics, Outcome.returns]
  · cases h : o.MkdirAllResponse.get? k <;>
      simp [TestOS.MkdirAll, h, Outcome.panics, Outcome.returns]
  · cases h : o.RemoveAllResponse.get? k <;>
      simp [TestOS.RemoveAll, h, Outcome.panics, Outcome.returns]
  · cases h : o.TempDirResponse.get? (dir ++ pattern) <;>
      simp [TestOS.TempDir, h, Outcome.panics, Outcome.returns]

/-- The scenario of C2: with only `/a/b` registered for `Stat`, the call `Stat("/a/c")`
panics and returns nothing, while `Stat("/a/b")` does not panic. -/
theorem abort_iff_miss_witness :
    (sampleOS.Stat IsPrintASCII Context.background "/a/c").out.panics ∧
    ¬ (sampleOS.Stat IsPrintASCII Context.background "/a/c").out.returns ∧
    ¬ (sampleOS.Stat IsPrintASCII Context.background "/a/b").out.panics :=
  have h := (abort_iff_miss IsPrintASCII sampleOS Context.background "/a/c" [] 0 "" "").1
  have h1 := (abort_iff_miss IsPrintASCII sampleOS Context.background "/a/b" [] 0 "" "").1
  ⟨h.1.mpr rfl, h.2 rfl, fun hp => nomatch (h1.1.mp hp).symm.trans
    (GoMap.get?_singleton_self "/a/b" (StatResponse.mk (some sampleInfo) none))⟩

/-- C3: `TempDir` is keyed by the concatenation of its two arguments in order. For every
fake, context, `dir` and `pattern`, the call returns the pair `(Dir, Err)` stored under
the key `dir ++ pattern` when that key is present, and panics when it is absent. -/
theorem tempDir_keyed_by_concat (IsPrint : Char → Bool) (o : TestOS) (ctx : Context)
    (dir pattern : String) :
    (∀ r, o.TempDirResponse.get? (dir ++ pattern) = some r →
      (o.TempDir IsPrint ctx dir pattern).out = Outcome.ret (r.Dir, r.Err)) ∧
    (o.TempDirResponse.get? (dir ++ pattern) = none →
      (o.TempDir IsPrint ctx dir pattern).out.panics) := by
  constructor
  · intro r h
    simp [TestOS.TempDir, h]
  · intro h
    simp [TestOS.TempDir, h, Outcome.panics]

/-- The scenario of C3: with `TempDir("/tmp", "build-*") -> ("/tmp/build-123", nil)`
registered, that call returns `("/tmp/build-123", nil)` and `TempDir("/tmp", "other-*")`
panics. -/
theorem tempDir_keyed_by_concat_witness :
    ((onlyTempDir "/tmp" "build-*" ⟨"/tmp/build-123", none⟩).TempDir IsPrintASCII
        Context.background "/tmp" "build-*").out = Outcome.ret ("/tmp/build-123", none) ∧
    ((onlyTempDir "/tmp" "build-*" ⟨"/tmp/build-123", none⟩).TempDir IsPrintASCII
        Context.background "/tmp" "other-*").out.panics :=
  ⟨(tempDir_keyed_by_concat IsPrintASCII (onlyTempDir "/tmp" "build-*" ⟨"/tmp/build-123", none⟩)
      Context.background "/tmp" "build-*").1 _ rfl,
   (tempDir_keyed_by_concat IsPrintASCII (onlyTempDir "/tmp" "build-*" ⟨"/tmp/build-123", none⟩)
      Context.background "/tmp" "other-*").2 rfl⟩

/-- Counterexample to C4 as stated: `a` and `aa` are different strings, yet both orders
of concatenation give the key `aaa`, so on the fake that holds only the entry registered
for `TempDir("a", "aa")` the swapped call `TempDir("aa", "a")` is a hit: it returns the
registered path and the registered error and does not panic. -/
theorem swapped_tempDir_counterexample :
    "a" ≠ "aa" ∧ "aa" ++ "a" = "a" ++ "aa" ∧
    ((onlyTempDir "a" "aa" ⟨"/tmp/x", some "EEXIST"⟩).TempDir IsPrintASCII
        Context.background "aa" "a").out = Outcome.ret ("/tmp/x", some "EEXIST") ∧
    ¬ ((onlyTempDir "a" "aa" ⟨"/tmp/x", some "EEXIST"⟩).TempDir IsPrintASCII
        Context.background "aa" "a").out.panics :=
  ⟨by decide, by decide, rfl, by decide⟩

/-- C4, amended: swapping the arguments of `TempDir` misses exactly when the two orders
of concatenation differ. For all strings `dir` and `pattern` and every fake whose
`TempDirResponse` holds only the entry registered for `(dir, pattern)`: the call
`TempDir(dir, pattern)` returns the registered response; when
`dir ++ pattern ≠ pattern ++ dir` the key of `(pattern, dir)` is absent and the call
`TempDir(pattern, dir)` panics; when `dir ++ pattern = pattern ++ dir` the call
`TempDir(pattern, dir)` is a hit and returns the registered pair `(Dir, Err)`; so the
swapped call panics if and only if `dir ++ pattern ≠ pattern ++ dir`. -/
theorem swapped_tempDir_misses (IsPrint : Char → Bool) (o : TestOS) (ctx : Context)
    (dir pattern : String) (resp : TempDirResponse)
    (honly : o.TempDirResponse = AList.singleton (dir ++ pattern) resp) :
    (o.TempDir IsPrint ctx dir pattern).out = Outcome.ret (resp.Dir, resp.Err) ∧
    (dir ++ pattern ≠ pattern ++ dir →
      o.TempDirResponse.get? (pattern ++ dir) = none ∧
      (o.TempDir IsPrint ctx pattern dir).out.panics) ∧
    (dir ++ pattern = pattern ++ dir →
      o.TempDirResponse.get? (pattern ++ dir) = some resp ∧
      (o.TempDir IsPrint ctx pattern dir).out = Outcome.ret (resp.Dir, resp.Err)) ∧
    ((o.TempDir IsPrint ctx pattern dir).out.panics ↔ dir ++ pattern ≠ pattern ++ dir) := by
  have hreg : o.TempDirResponse.get? (dir ++ pattern) = some resp := by
    rw [honly]
    exact GoMap.get?_singleton_self _ _
  have hmiss : dir ++ pattern ≠ pattern ++ dir →
      o.TempDirResponse.get? (pattern ++ dir) = none := by
    intro h
    rw [honly]
    exact GoMap.get?_singleton_ne _ (Ne.symm h)
  have hhit : dir ++ pattern = pattern ++ dir →
      o.TempDirResponse.get? (pattern ++ dir) = some resp := by
    intro h
    rw [← h]
    exact hreg
  refine ⟨?_, ?_, ?_, ?_⟩
  · simp only [TestOS.TempDir, hreg]
  · intro h
    refine ⟨hmiss h, ?_⟩
    simp only [TestOS.TempDir, hmiss h, Outcome.panics]
  · intro h
    refine ⟨hhit h, ?_⟩
    simp only [TestOS.TempDir, hhit h]
  · by_cases h : dir ++ pattern = pattern ++ dir
    · simp only [TestOS.TempDir, hhit h]
      simp [Outcome.panics, h]
    · simp only [TestOS.TempDir, hmiss h]
      simp [Outcome.panics, h]

/-- Two instances of C4 as amended. With only `TempDir("/tmp", "build-*")` registered,
the two orders give different keys and the swapped call `TempDir("build-*", "/tmp")`
panics. With only `TempDir("a", "aa")` registered, to the path `/tmp/x` and the error
`EEXIST`, the two orders give the same key and the swapped call `TempDir("aa", "a")`
returns that path and that error. -/
theorem swapped_tempDir_misses_witness :
    ("/tmp" ++ "build-*" ≠ "build-*" ++ "/tmp" ∧
      (onlyTempDir "/tmp" "build-*" ⟨"/tmp/build-123", none⟩).TempDirResponse.get?
        ("build-*" ++ "/tmp") = none ∧
      ((onlyTempDir "/tmp" "build-*" ⟨"/tmp/build-123", none⟩).TempDir IsPrintASCII
        Context.background "build-*" "/tmp").out.panics) ∧
    ("a" ++ "aa" = "aa" ++ "a" ∧
      ((onlyTempDir "a" "aa" ⟨"/tmp/x", some "EEXIST"⟩).TempDir IsPrintASCII
        Context.background "aa" "a").out = Outcome.ret ("/tmp/x", some "EEXIST") ∧
      ((onlyTempDir "a" "aa" ⟨"/tmp/x", some "EEXIST"⟩).TempDir IsPrintASCII
        Context.background "a" "aa").out = Outcome.ret ("/tmp/x", some "EEXIST")) :=
  have h1 := swapped_tempDir_misses IsPrintASCII
    (onlyTempDir "/tmp" "build-*" ⟨"/tmp/build-123", none⟩)
    Context.background "/tmp" "build-*" ⟨"/tmp/build-123", none⟩ rfl
  have h2 := swapped_tempDir_misses IsPrintASCII
    (onlyTempDir "a" "aa" ⟨"/tmp/x", some "EEXIST"⟩)
    Context.background "a" "aa" ⟨"/tmp/x", some "EEXIST"⟩ rfl
  ⟨⟨by decide, (h1.2.1 (by decide)).1, (h1.2.1 (by decide)).2⟩,
   ⟨by decide, (h2.2.2.1 (by decide)).2, h2.1⟩⟩

/-! ### Arguments that are not read -/

/-- C5: `WriteFile` and `MkdirAll` ignore their payload arguments. For every fake, context
and name, any two byte sequences and any two permission values give the same outcome of
`WriteFile` (the same returned error or the same panic), and any two permission values
give the same outcome of `MkdirAll`. -/
theorem payload_ignored (IsPrint : Char → Bool) (o : TestOS) (ctx : Context)
    (name : String) (data1 data2 : List UInt8) (perm1 perm2 : os.FileMode) :
    (o.WriteFile IsPrint ctx name data1 perm1).out
      = (o.WriteFile IsPrint ctx name data2 perm2).out ∧
    (o.MkdirAll IsPrint ctx name perm1).out = (o.MkdirAll IsPrint ctx name perm2).out :=
  ⟨rfl, rfl⟩

/-- The scenario of C5: with `WriteFile("/a/b")` registered to the error `disk full`,
writes to `/a/b` with different bytes and permissions return that error, and `MkdirAll`
on the unregistered `/a/c` panics alike for different permissions. -/
theorem payload_ignored_witness :
    (sampleOS.WriteFile IsPrintASCII Context.background "/a/b" [1, 2, 3] 420).out
      = Outcome.ret (some "disk full") ∧
    (sampleOS.WriteFile IsPrintASCII Context.background "/a/b" [] 0).out
      = Outcome.ret (some "disk full") ∧
    (sampleOS.MkdirAll IsPrintASCII Context.background "/a/c" 493).out
      = (sampleOS.MkdirAll IsPrintASCII Context.background "/a/c" 0).out :=
  have h := payload_ignored IsPrintASCII sampleOS Context.background "/a/b" [1, 2, 3] [] 420 0
  ⟨h.1.trans rfl, rfl,
   (payload_ignored IsPrintASCII sampleOS Context.background "/a/c" [] [] 493 0).2⟩

/-- C6: the execution context is not honoured. For each of the seven operations, every
fake and every choice of the remaining arguments, any two contexts (live, cancelled or
expired) give the same outcome: the same returned values or the same panic message,
and the same receiver. -/
theorem context_ignored (IsPrint : Char → Bool) (o : TestOS) (ctx1 ctx2 : Context)
    (k : String) (data : List UInt8) (perm : os.FileMode) (dir pattern : String) :
    o.Stat IsPrint ctx1 k = o.Stat IsPrint ctx2 k ∧
    o.ReadDir IsPrint ctx1 k = o.ReadDir IsPrint ctx2 k ∧
    o.ReadFile IsPrint ctx1 k = o.ReadFile IsPrint ctx2 k ∧
    o.WriteFile IsPrint ctx1 k data perm = o.WriteFile IsPrint ctx2 k data perm ∧
    o.MkdirAll IsPrint ctx1 k perm = o.MkdirAll IsPrint ctx2 k perm ∧
    o.RemoveAll IsPrint ctx1 k = o.RemoveAll IsPrint ctx2 k ∧
    o.TempDir IsPrint ctx1 dir pattern = o.TempDir IsPrint ctx2 dir pattern :=
  ⟨rfl, rfl, rfl, rfl, rfl, rfl, rfl⟩

/-- An instance of C6: under a cancelled context `Stat("/a/b")` still returns the
registered metadata, and `Stat("/a/c")` panics as under a live context. -/
theorem context_ignored_witness :
    (sampleOS.Stat IsPrintASCII Context.canceled "/a/b").out
      = Outcome.ret (some sampleInfo, none) ∧
    sampleOS.Stat IsPrintASCII Context.canceled "/a/c"
      = sampleOS.Stat IsPrintASCII Context.background "/a/c" :=
  ⟨(congrArg Ran.out (context_ignored IsPrintASCII sampleOS Context.canceled
      Context.background "/a/b" [] 0 "" "").1).trans rfl,
   (context_ignored IsPrintASCII sampleOS Context.canceled Context.background "/a/c" [] 0
      "" "").1⟩

/-! ### No side effect -/

/-- C7: no operation has a side effect on the fake. For each of the seven operations and
every input, the receiver (all seven mappings) is the same after the call as before it,
on a hit and on a miss; hence a call made again on the resulting fake gives the same
outcome, and a call made after any sequence of other calls gives the same outcome as
when it is made first. -/
theorem no_side_effect (IsPrint : Char → Bool) (o : TestOS) (ctx : Context) (k : String)
    (data : List UInt8) (perm : os.FileMode) (dir pattern : String)
    (c : Call) (cs : List Call) :
    ((o.Stat IsPrint ctx k).recv = o ∧
      (o.ReadDir IsPrint ctx k).recv = o ∧
      (o.ReadFile IsPrint ctx k).recv = o ∧
      (o.WriteFile IsPrint ctx k data perm).recv = o ∧
      (o.MkdirAll IsPrint ctx k perm).recv = o ∧
      (o.RemoveAll IsPrint ctx k).recv = o ∧
      (o.TempDir IsPrint ctx dir pattern).recv = o) ∧
    (o.call IsPrint c).recv = o ∧
    (o.call IsPrint c).recv.call IsPrint c = o.call IsPrint c ∧
    (o.after IsPrint cs).call IsPrint c = o.call IsPrint c := by
  refine ⟨⟨?_, ?_, ?_, ?_, ?_, ?_, ?_⟩, TestOS.call_recv IsPrint o c, ?_, ?_⟩
  · unfold TestOS.Stat; split <;> rfl
  · unfold TestOS.ReadDir; split <;> rfl
  · unfold TestOS.ReadFile; split <;> rfl
  · unfold TestOS.WriteFile; split <;> rfl
  · unfold TestOS.MkdirAll; split <;> rfl
  · unfold TestOS.RemoveAll; split <;> rfl
  · unfold TestOS.TempDir; split <;> rfl
  · rw [TestOS.call_recv]
  · rw [TestOS.after_eq]

/-- An instance of C7: after a `Stat` that misses, a `WriteFile` and a `TempDir` that
misses, the fake is `sampleOS` as before and `Stat("/a/b")` returns what it returns as
the first call. -/
theorem no_side_effect_witness :
    sampleOS.after IsPrintASCII
        [Call.Stat Context.background "/a/c",
          Call.WriteFile Context.background "/a/b" [1] 420,
          Call.TempDir Context.canceled "/tmp" "x"] = sampleOS ∧
    ((sampleOS.after IsPrintASCII
        [Call.Stat Context.background "/a/c",
          Call.WriteFile Context.background "/a/b" [1] 420,
          Call.TempDir Context.canceled "/tmp" "x"]).call IsPrintASCII
        (Call.Stat Context.background "/a/b")).out
      = Outcome.ret (Returned.Stat (some sampleInfo) none) :=
  ⟨rfl, (congrArg Ran.out (no_side_effect IsPrintASCII sampleOS Context.background "/a/b" []
      0 "" "" (Call.Stat Context.background "/a/b")
      [Call.Stat Context.background "/a/c",
        Call.WriteFile Context.background "/a/b" [1] 420,
        Call.TempDir Context.canceled "/tmp" "x"]).2.2.2).trans rfl⟩

/-! ### The panic message -/

/-- C8: the panic message identifies the operation and the missing key. For each of the
seven operations and every input whose lookup key is absent, the call panics with a
message in which the name of the operation and the quoted (`%q`) form of the key occur
(for `TempDir`, of `dir ++ pattern`); and within one operation two different missing
keys give two different messages. -/
theorem panic_message_names_call (IsPrint : Char → Bool) (o : TestOS) (ctx : Context)
    (data : List UInt8) (perm : os.FileMode) :
    ((∀ k, o.StatResponse.get? k = none →
      (o.Stat IsPrint ctx k).out.panicsNaming IsPrint "Stat" k) ∧
    (∀ k, o.ReadDirResponse.get? k = none →
      (o.ReadDir IsPrint ctx k).out.panicsNaming IsPrint "ReadDir" k) ∧
    (∀ k, o.ReadFileResponse.get? k = none →
      (o.ReadFile IsPrint ctx k).out.panicsNaming IsPrint "ReadFile" k) ∧
    (∀ k, o.WriteFileResponse.get? k = none →
      (o.WriteFile IsPrint ctx k data perm).out.panicsNaming IsPrint "WriteFile" k) ∧
    (∀ k, o.MkdirAllResponse.get? k = none →
      (o.MkdirAll IsPrint ctx k perm).out.panicsNaming IsPrint "MkdirAll" k) ∧
    (∀ k, o.RemoveAllResponse.get? k = none →
      (o.RemoveAll IsPrint ctx k).out.panicsNaming IsPrint "RemoveAll" k) ∧
    (∀ dir pattern, o.TempDirResponse.get? (dir ++ pattern) = none →
      (o.TempDir IsPrint ctx dir pattern).out.panicsNaming IsPrint "TempDir" (dir ++ pattern))) ∧
    ((∀ k1 k2, o.StatResponse.get? k1 = none → o.StatResponse.get? k2 = none → k1 ≠ k2 →
      (o.Stat IsPrint ctx k1).out.panicsApart (o.Stat IsPrint ctx k2).out) ∧
    (∀ k1 k2, o.ReadDirResponse.get? k1 = none → o.ReadDirResponse.get? k2 = none → k1 ≠ k2 →
      (o.ReadDir IsPrint ctx k1).out.panicsApart (o.ReadDir IsPrint ctx k2).out) ∧
    (∀ k1 k2, o.ReadFileResponse.get? k1 = none → o.ReadFileResponse.get? k2 = none → k1 ≠ k2 →
      (o.ReadFile IsPrint ctx k1).out.panicsApart (o.ReadFile IsPrint ctx k2).out) ∧
    (∀ k1 k2, o.WriteFileResponse.get? k1 = none → o.WriteFileResponse.get? k2 = none → k1 ≠ k2 →
      (o.WriteFile IsPrint ctx k1 data perm).out.panicsApart (o.WriteFile IsPrint ctx k2 data perm).out) ∧
    (∀ k1 k2, o.MkdirAllResponse.get? k1 = none → o.MkdirAllResponse.get? k2 = none → k1 ≠ k2 →
      (o.MkdirAll IsPrint ctx k1 perm).out.panicsApart (o.MkdirAll IsPrint ctx k2 perm).out) ∧
    (∀ k1 k2, o.RemoveAllResponse.get? k1 = none → o.RemoveAllResponse.get? k2 = none → k1 ≠ k2 →
      (o.RemoveAll IsPrint ctx k1).out.panicsApart (o.RemoveAll IsPrint ctx k2).out) ∧
    (∀ dir1 pattern1 dir2 pattern2, o.TempDirResponse.get? (dir1 ++ pattern1) = none →
      o.TempDirResponse.get? (dir2 ++ pattern2) = none → dir1 ++ pattern1 ≠ dir2 ++ pattern2 →
      (o.TempDir IsPrint ctx dir1 pattern1).out.panicsApart
        (o.TempDir IsPrint ctx dir2 pattern2).out)) := by
  refine ⟨⟨?_, ?_, ?_, ?_, ?_, ?_, ?_⟩, ⟨?_, ?_, ?_, ?_, ?_, ?_, ?_⟩⟩
  · intro k h
    rw [TestOS.Stat_miss IsPrint o ctx k h]
    exact mentions_of_parts "Stat" " has no response for filename " (strconv.Quote IsPrint k)
  · intro k h
    rw [TestOS.ReadDir_miss IsPrint o ctx k h]
    exact mentions_of_parts "ReadDir" " has no response for dirname " (strconv.Quote IsPrint k)
  · intro k h
    rw [TestOS.ReadFile_miss IsPrint o ctx k h]
    exact mentions_of_parts "ReadFile" " has no response for filename " (strconv.Quote IsPrint k)
  · intro k h
    rw [TestOS.WriteFile_miss IsPrint o ctx k data perm h]
    exact mentions_of_parts "WriteFile" "Response has no response for filename " (strconv.Quote IsPrint k)
  · intro k h
    rw [TestOS.MkdirAll_miss IsPrint o ctx k perm h]
    exact mentions_of_parts "MkdirAll" "Response has no response for dirname " (strconv.Quote IsPrint k)
  · intro k h
    rw [TestOS.RemoveAll_miss IsPrint o ctx k h]
    exact mentions_of_parts "RemoveAll" "Response has no response for path " (strconv.Quote IsPrint k)
  · intro dir pattern h
    rw [TestOS.TempDir_miss IsPrint o ctx dir pattern h]
    exact mentions_of_parts "TempDir" "Response has no response for  dir + pattern "
      (strconv.Quote IsPrint (dir ++ pattern))
  · intro k1 k2 h1 h2 hne
    rw [TestOS.Stat_miss IsPrint o ctx k1 h1, TestOS.Stat_miss IsPrint o ctx k2 h2]
    exact append_quote_injective IsPrint _ k1 k2 hne
  · intro k1 k2 h1 h2 hne
    rw [TestOS.ReadDir_miss IsPrint o ctx k1 h1, TestOS.ReadDir_miss IsPrint o ctx k2 h2]
    exact append_quote_injective IsPrint _ k1 k2 hne
  · intro k1 k2 h1 h2 hne
    rw [TestOS.ReadFile_miss IsPrint o ctx k1 h1, TestOS.ReadFile_miss IsPrint o ctx k2 h2]
    exact append_quote_injective IsPrint _ k1 k2 hne
  · intro k1 k2 h1 h2 hne
    rw [TestOS.WriteFile_miss IsPrint o ctx k1 data perm h1, TestOS.WriteFile_miss IsPrint o ctx k2 data perm h2]
    exact append_quote_injective IsPrint _ k1 k2 hne
  · intro k1 k2 h1 h2 hne
    rw [TestOS.MkdirAll_miss IsPrint o ctx k1 perm h1, TestOS.MkdirAll_miss IsPrint o ctx k2 perm h2]
    exact append_quote_injective IsPrint _ k1 k2 hne
  · intro k1 k2 h1 h2 hne
    rw [TestOS.RemoveAll_miss IsPrint o ctx k1 h1, TestOS.RemoveAll_miss IsPrint o ctx k2 h2]
    exact append_quote_injective IsPrint _ k1 k2 hne
  · intro d1 p1 d2 p2 h1 h2 hne
    rw [TestOS.TempDir_miss IsPrint o ctx d1 p1 h1, TestOS.TempDir_miss IsPrint o ctx d2 p2 h2]
    exact append_quote_injective IsPrint _ _ _ hne

/-- The scenario of C8: with only `/a/b` registered for `Stat`, the call `Stat("/a/c")`
panics with the text `Stat has no response for filename ` followed by `/a/c` between
double quotes, which mentions `Stat` and the quoted key, and `Stat("/a/d")` panics with
another message. -/
theorem panic_message_names_call_witness :
    (sampleOS.Stat IsPrintASCII Context.background "/a/c").out
      = Outcome.panic ("Stat has no response for filename "
          ++ String.mk [strconv.dquote] ++ "/a/c" ++ String.mk [strconv.dquote]) ∧
    (sampleOS.Stat IsPrintASCII Context.background "/a/c").out.panicsNaming
      IsPrintASCII "Stat" "/a/c" ∧
    (sampleOS.Stat IsPrintASCII Context.background "/a/c").out.panicsApart
      (sampleOS.Stat IsPrintASCII Context.background "/a/d").out :=
  have h := panic_message_names_call IsPrintASCII sampleOS Context.background [] 0
  ⟨rfl, h.1.1 "/a/c" rfl, h.2.1 "/a/c" "/a/d" rfl rfl (by decide)⟩

/-! ### The metadata stand-in -/

/-- C9: `IsDir` returns exactly the `IsDirectory` flag the record was constructed with,
and two records with the same flag give the same `IsDir` whatever their `BaseName`
(and embedded value). -/
theorem isDir_returns_flag :
    (∀ (e : os.FileInfo) (name : String) (d : Bool), (TestFileInfo.mk e name d).IsDir = d) ∧
    (∀ fi : TestFileInfo, fi.IsDir = fi.IsDirectory) ∧
    (∀ (e1 e2 : os.FileInfo) (name1 name2 : String) (d : Bool),
      (TestFileInfo.mk e1 name1 d).IsDir = (TestFileInfo.mk e2 name2 d).IsDir) ∧
    (∀ fi1 fi2 : TestFileInfo, fi1.IsDirectory = fi2.IsDirectory → fi1.IsDir = fi2.IsDir) :=
  ⟨fun _ _ _ => rfl, fun _ => rfl, fun _ _ _ _ _ => rfl, fun _ _ h => h⟩

/-- An instance of C9: a directory record named `b` and one named `c/d` both answer
`true`, and `sampleInfo` answers `false`. -/
theorem isDir_returns_flag_witness :
    (TestFileInfo.mk none "b" true).IsDir = (TestFileInfo.mk (some sampleInfo) "c/d" true).IsDir ∧
    (TestFileInfo.mk none "b" true).IsDir = true ∧ sampleInfo.IsDir = false :=
  ⟨isDir_returns_flag.2.2.2 (TestFileInfo.mk none "b" true)
      (TestFileInfo.mk (some sampleInfo) "c/d" true) rfl,
   isDir_returns_flag.1 none "b" true, isDir_returns_flag.1 none "b" false⟩

/-- C10: `Name` returns exactly the `BaseName` string the record was constructed with,
for every string (the empty string and strings with path separators included) and
whatever the `IsDirectory` flag (and embedded value). -/
theorem name_returns_baseName :
    (∀ (e : os.FileInfo) (name : String) (d : Bool), (TestFileInfo.mk e name d).Name = name) ∧
    (∀ fi : TestFileInfo, fi.Name = fi.BaseName) ∧
    (∀ (e1 e2 : os.FileInfo) (name : String) (d1 d2 : Bool),
      (TestFileInfo.mk e1 name d1).Name = (TestFileInfo.mk e2 name d2).Name) :=
  ⟨fun _ _ _ => rfl, fun _ => rfl, fun _ _ _ _ _ => rfl⟩

/-- An instance of C10: the empty name and a name with path separators come back
unchanged, for a file and for a directory. -/
theorem name_returns_baseName_witness :
    (TestFileInfo.mk none "" true).Name = "" ∧
    (TestFileInfo.mk (some sampleInfo) "/a/../b/" false).Name = "/a/../b/" ∧
    sampleInfo.Name = "b" :=
  ⟨name_returns_baseName.1 none "" true,
   name_returns_baseName.1 (some sampleInfo) "/a/../b/" false,
   name_returns_baseName.2.1 sampleInfo⟩

/-! ### The key of `TempDir` -/

/-- C11: the key of `TempDir` is ambiguous. For every fake, two argument pairs with the
same concatenation give the same outcome of `TempDir`; the different pairs
`("/tmp", "build-*")` and `("/tmpb", "uild-*")` have the same key; and a response
registered for one pair is returned, without a panic, to a call with any pair of the
same concatenation. -/
theorem tempDir_key_ambiguous (IsPrint : Char → Bool) (ctx : Context) :
    (∀ (o : TestOS) (dir pattern dir2 pattern2 : String),
      dir ++ pattern = dir2 ++ pattern2 →
      o.TempDir IsPrint ctx dir pattern = o.TempDir IsPrint ctx dir2 pattern2) ∧
    (("/tmp", "build-*") ≠ ("/tmpb", "uild-*") ∧ "/tmp" ++ "build-*" = "/tmpb" ++ "uild-*") ∧
    (∀ (dir pattern dir2 pattern2 : String) (resp : TempDirResponse),
      dir ++ pattern = dir2 ++ pattern2 →
      ((onlyTempDir dir pattern resp).TempDir IsPrint ctx dir2 pattern2).out
        = Outcome.ret (resp.Dir, resp.Err)) := by
  refine ⟨?_, ⟨by decide, by decide⟩, ?_⟩
  · intro o dir pattern dir2 pattern2 h
    simp only [TestOS.TempDir, h]
  · intro dir pattern dir2 pattern2 resp h
    have hget : (onlyTempDir dir pattern resp).TempDirResponse.get? (dir2 ++ pattern2)
        = some resp := by
      rw [← h]
      exact GoMap.get?_singleton_self _ _
    simp only [TestOS.TempDir, hget]

/-- The scenario of C11: the response registered for `TempDir("/tmp", "build-*")` is
returned to the call `TempDir("/tmpb", "uild-*")`, which does not panic, and on any
fake the two calls end alike. -/
theorem tempDir_key_ambiguous_witness :
    ((onlyTempDir "/tmp" "build-*" ⟨"/tmp/build-123", none⟩).TempDir IsPrintASCII
        Context.background "/tmpb" "uild-*").out = Outcome.ret ("/tmp/build-123", none) ∧
    ¬ ((onlyTempDir "/tmp" "build-*" ⟨"/tmp/build-123", none⟩).TempDir IsPrintASCII
        Context.background "/tmpb" "uild-*").out.panics ∧
    sampleOS.TempDir IsPrintASCII Context.background "/tmp" "build-*"
      = sampleOS.TempDir IsPrintASCII Context.background "/tmpb" "uild-*" :=
  have h := tempDir_key_ambiguous IsPrintASCII Context.background
  ⟨h.2.2 "/tmp" "build-*" "/tmpb" "uild-*" ⟨"/tmp/build-123", none⟩ (by decide),
   by decide,
   h.1 sampleOS "/tmp" "build-*" "/tmpb" "uild-*" (by decide)⟩

/-! ### One mapping per operation -/

/-- C12: each operation consults only its own mapping. For each of the seven operations
and every input, the outcome on a fake is the outcome on the fake in which the six other
mappings are replaced by arbitrary mappings; and on a fake where a key is registered in
`WriteFileResponse` and in no other mapping, `WriteFile` returns the stored error while
`MkdirAll`, `RemoveAll`, `Stat`, `ReadDir`, `ReadFile` and `TempDir` panic for that
string. -/
theorem own_mapping_only (IsPrint : Char → Bool) (o : TestOS) (ctx : Context) (k : String)
    (data : List UInt8) (perm : os.FileMode) (dir pattern : String)
    (st : GoMap StatResponse) (rd : GoMap ReadDirResponse) (rf : GoMap ReadFileResponse)
    (wf md rm : GoMap error) (td : GoMap TempDirResponse) :
    (((TestOS.mk o.StatResponse rd rf wf md rm td).Stat IsPrint ctx k).out
        = (o.Stat IsPrint ctx k).out ∧
      ((TestOS.mk st o.ReadDirResponse rf wf md rm td).ReadDir IsPrint ctx k).out
        = (o.ReadDir IsPrint ctx k).out ∧
      ((TestOS.mk st rd o.ReadFileResponse wf md rm td).ReadFile IsPrint ctx k).out
        = (o.ReadFile IsPrint ctx k).out ∧
      ((TestOS.mk st rd rf o.WriteFileResponse md rm td).WriteFile IsPrint ctx k data perm).out
        = (o.WriteFile IsPrint ctx k data perm).out ∧
      ((TestOS.mk st rd rf wf o.MkdirAllResponse rm td).MkdirAll IsPrint ctx k perm).out
        = (o.MkdirAll IsPrint ctx k perm).out ∧
      ((TestOS.mk st rd rf wf md o.RemoveAllResponse td).RemoveAll IsPrint ctx k).out
        = (o.RemoveAll IsPrint ctx k).out ∧
      ((TestOS.mk st rd rf wf md rm o.TempDirResponse).TempDir IsPrint ctx dir pattern).out
        = (o.TempDir IsPrint ctx dir pattern).out) ∧
    (∀ e, o.WriteFileResponse.get? k = some e →
      o.StatResponse.get? k = none → o.ReadDirResponse.get? k = none →
      o.ReadFileResponse.get? k = none → o.MkdirAllResponse.get? k = none →
      o.RemoveAllResponse.get? k = none → o.TempDirResponse.get? k = none →
      (o.WriteFile IsPrint ctx k data perm).out = Outcome.ret e ∧
      (o.MkdirAll IsPrint ctx k perm).out.panics ∧
      (o.RemoveAll IsPrint ctx k).out.panics ∧
      (o.Stat IsPrint ctx k).out.panics ∧
      (o.ReadDir IsPrint ctx k).out.panics ∧
      (o.ReadFile IsPrint ctx k).out.panics ∧
      (dir ++ pattern = k → (o.TempDir IsPrint ctx dir pattern).out.panics)) := by
  refine ⟨⟨?_, ?_, ?_, ?_, ?_, ?_, ?_⟩, ?_⟩
  · simp only [TestOS.Stat]; split <;> rfl
  · simp only [TestOS.ReadDir]; split <;> rfl
  · simp only [TestOS.ReadFile]; split <;> rfl
  · simp only [TestOS.WriteFile]; split <;> rfl
  · simp only [TestOS.MkdirAll]; split <;> rfl
  · simp only [TestOS.RemoveAll]; split <;> rfl
  · simp only [TestOS.TempDir]; split <;> rfl
  · intro e hwf hst hrd hrf hmd hrm htd
    refine ⟨?_, ?_, ?_, ?_, ?_, ?_, ?_⟩
    · simp only [TestOS.WriteFile, hwf]
    · simp only [TestOS.MkdirAll, hmd, Outcome.panics]
    · simp only [TestOS.RemoveAll, hrm, Outcome.panics]
    · simp only [TestOS.Stat, hst, Outcome.panics]
    · simp only [TestOS.ReadDir, hrd, Outcome.panics]
    · simp only [TestOS.ReadFile, hrf, Outcome.panics]
    · intro hk
      simp only [TestOS.TempDir, hk, htd, Outcome.panics]

/-- An instance of C12: with `/out.txt` registered only for `WriteFile`, a write to
`/out.txt` returns the registered error and the six other operations panic for
`/out.txt`; and `Stat("/a/b")` ends on `sampleOS` as on the fake that keeps the `Stat`
mapping of `sampleOS` and has other mappings in the six other fields. -/
theorem own_mapping_only_witness :
    ((onlyWriteFile "/out.txt" (some "disk full")).WriteFile IsPrintASCII Context.background
        "/out.txt" [1, 2] 420).out = Outcome.ret (some "disk full") ∧
    ((onlyWriteFile "/out.txt" (some "disk full")).MkdirAll IsPrintASCII Context.background
        "/out.txt" 420).out.panics ∧
    ((onlyWriteFile "/out.txt" (some "disk full")).RemoveAll IsPrintASCII Context.background
        "/out.txt").out.panics ∧
    ((onlyWriteFile "/out.txt" (some "disk full")).Stat IsPrintASCII Context.background
        "/out.txt").out.panics ∧
    ((onlyWriteFile "/out.txt" (some "disk full")).ReadDir IsPrintASCII Context.background
        "/out.txt").out.panics ∧
    ((onlyWriteFile "/out.txt" (some "disk full")).ReadFile IsPrintASCII Context.background
        "/out.txt").out.panics ∧
    ((onlyWriteFile "/out.txt" (some "disk full")).TempDir IsPrintASCII Context.background
        "/out" ".txt").out.panics ∧
    ((TestOS.mk sampleOS.StatResponse zeroOS.ReadDirResponse ∅ zeroOS.WriteFileResponse ∅ ∅
        zeroOS.TempDirResponse).Stat IsPrintASCII Context.background "/a/b").out
      = (sampleOS.Stat IsPrintASCII Context.background "/a/b").out :=
  have h := own_mapping_only IsPrintASCII (onlyWriteFile "/out.txt" (some "disk full"))
    Context.background "/out.txt" [1, 2] 420 "/out" ".txt" ∅ ∅ ∅ ∅ ∅ ∅ ∅
  have h2 := h.2 (some "disk full") rfl rfl rfl rfl rfl rfl rfl
  ⟨h2.1, h2.2.1, h2.2.2.1, h2.2.2.2.1, h2.2.2.2.2.1, h2.2.2.2.2.2.1,
   h2.2.2.2.2.2.2 (by decide),
   (own_mapping_only IsPrintASCII sampleOS Context.background "/a/b" [] 0 "" ""
      ∅ zeroOS.ReadDirResponse ∅ zeroOS.WriteFileResponse ∅ ∅ zeroOS.TempDirResponse).1.1⟩

/-! ### Stored values are not inspected -/

/-- C13: presence is decided by key membership, not by the stored value. For every fake
in which a key is registered with a nil error for `WriteFile`, `MkdirAll` or
`RemoveAll`, the call returns nil and does not panic; and for every key registered for
`Stat`, `ReadDir`, `ReadFile` or `TempDir` with the zero-value response, the call
returns that zero value with a nil error and does not panic. -/
theorem zero_value_is_a_hit (IsPrint : Char → Bool) (o : TestOS) (ctx : Context)
    (k : String) (data : List UInt8) (perm : os.FileMode) (dir pattern : String) :
    (o.WriteFileResponse.get? k = some none →
      (o.WriteFile IsPrint ctx k data perm).out = Outcome.ret none ∧
      ¬ (o.WriteFile IsPrint ctx k data perm).out.panics) ∧
    (o.MkdirAllResponse.get? k = some none →
      (o.MkdirAll IsPrint ctx k perm).out = Outcome.ret none ∧
      ¬ (o.MkdirAll IsPrint ctx k perm).out.panics) ∧
    (o.RemoveAllResponse.get? k = some none →
      (o.RemoveAll IsPrint ctx k).out = Outcome.ret none ∧
      ¬ (o.RemoveAll IsPrint ctx k).out.panics) ∧
    (o.StatResponse.get? k = some ⟨none, none⟩ →
      (o.Stat IsPrint ctx k).out = Outcome.ret (none, none) ∧
      ¬ (o.Stat IsPrint ctx k).out.panics) ∧
    (o.ReadDirResponse.get? k = some ⟨[], none⟩ →
      (o.ReadDir IsPrint ctx k).out = Outcome.ret ([], none) ∧
      ¬ (o.ReadDir IsPrint ctx k).out.panics) ∧
    (o.ReadFileResponse.get? k = some ⟨[], none⟩ →
      (o.ReadFile IsPrint ctx k).out = Outcome.ret ([], none) ∧
      ¬ (o.ReadFile IsPrint ctx k).out.panics) ∧
    (o.TempDirResponse.get? (dir ++ pattern) = some ⟨"", none⟩ →
      (o.TempDir IsPrint ctx dir pattern).out = Outcome.ret ("", none) ∧
      ¬ (o.TempDir IsPrint ctx dir pattern).out.panics) := by
  refine ⟨?_, ?_, ?_, ?_, ?_, ?_, ?_⟩ <;> intro h
  · simp only [TestOS.WriteFile, h, Outcome.panics, not_false_eq_true, and_self]
  · simp only [TestOS.MkdirAll, h, Outcome.panics, not_false_eq_true, and_self]
  · simp only [TestOS.RemoveAll, h, Outcome.panics, not_false_eq_true, and_self]
  · simp only [TestOS.Stat, h, Outcome.panics, not_false_eq_true, and_self]
  · simp only [TestOS.ReadDir, h, Outcome.panics, not_false_eq_true, and_self]
  · simp only [TestOS.ReadFile, h, Outcome.panics, not_false_eq_true, and_self]
  · simp only [TestOS.TempDir, h, Outcome.panics, not_false_eq_true, and_self]

/-- An instance of C13: on `zeroOS`, where `/z` is registered everywhere with the zero
value, all seven operations return that zero value for `/z`, while `Stat` on the
unregistered `/y` panics. -/
theorem zero_value_is_a_hit_witness :
    (zeroOS.WriteFile IsPrintASCII Context.background "/z" [1] 420).out = Outcome.ret none ∧
    (zeroOS.MkdirAll IsPrintASCII Context.background "/z" 493).out = Outcome.ret none ∧
    (zeroOS.RemoveAll IsPrintASCII Context.background "/z").out = Outcome.ret none ∧
    (zeroOS.Stat IsPrintASCII Context.background "/z").out = Outcome.ret (none, none) ∧
    (zeroOS.ReadDir IsPrintASCII Context.background "/z").out = Outcome.ret ([], none) ∧
    (zeroOS.ReadFile IsPrintASCII Context.background "/z").out = Outcome.ret ([], none) ∧
    (zeroOS.TempDir IsPrintASCII Context.background "/" "z").out = Outcome.ret ("", none) ∧
    ¬ (zeroOS.Stat IsPrintASCII Context.background "/z").out.panics ∧
    (zeroOS.Stat IsPrintASCII Context.background "/y").out.panics :=
  have h := zero_value_is_a_hit IsPrintASCII zeroOS Context.background "/z" [1] 420 "/" "z"
  have h2 := (zero_value_is_a_hit IsPrintASCII zeroOS Context.background "/z" [] 493
    "" "").2.1
  ⟨(h.1 rfl).1, (h2 rfl).1, (h.2.2.1 rfl).1, (h.2.2.2.1 rfl).1, (h.2.2.2.2.1 rfl).1,
   (h.2.2.2.2.2.1 rfl).1, (h.2.2.2.2.2.2 rfl).1, (h.2.2.2.1 rfl).2, by decide⟩

end testservices
